import Mathlib

/-!
Shallow embedding of `backend.py` (HEPIA LSDS Smart Building Z-Wave backend)
and proofs about the behaviour its specification claims.

The embedding follows the Python source:
* OZW node objects become the `ZWNode` structure (only the attributes the
  backend reads).
* The backend object state becomes the `Backend` structure: the dict
  `self.network.nodes`, the `self.timestamps` dict (a Python dict is an
  insertion-ordered association list), the `node_added` / `node_removed`
  sentinels and the configuration attributes.
* The module-level global `started` is threaded explicitly through `start`.
* External driver behaviour (whether `network.is_ready` holds at each poll,
  whether `controller.add_node()` accepts the command, how the busy-wait
  loop exits) is passed in as explicit environment parameters.
* `re.search(pattern, s, re.I)` is abstracted as a boolean match function
  stored in the backend (`re_sensor_match`, `re_dimmer_match`), the shallow
  counterpart of a compiled regex.
* Python floats are modelled as rationals; `raise RuntimeError(msg)` becomes
  `Except.error msg`; an implicit `return None` becomes `PyResult.pyNone`.
-/

namespace MAIoT

/-- An OZW node object, restricted to the attributes `backend.py` reads. -/
structure ZWNode where
  node_id : Nat
  is_ready : Bool
  type : String
  product_name : String
  location : String
  name : String
deriving DecidableEq, Repr

/-- An OZW value object, restricted to the attributes the sensor readers use
(`v.data`, `v.units`).  Python float data is modelled as a rational. -/
structure ZWValue where
  data : Rat
  units : String
deriving DecidableEq, Repr

/-- Python dict membership `k in d`, on an insertion-ordered association list. -/
def dictHasKey {α : Type} (d : List (String × α)) (k : String) : Bool :=
  d.any (fun p => p.1 == k)

/-- Python dict assignment `d[k] = v`: overwrite in place if the key exists
(keeping insertion order), otherwise append at the end. -/
def dictSet {α : Type} (d : List (String × α)) (k : String) (v : α) :
    List (String × α) :=
  if dictHasKey d k then d.map (fun p => if p.1 == k then (k, v) else p)
  else d ++ [(k, v)]

/-- Python dict lookup `d[k]`, `none` standing for the `KeyError` case. -/
def dictGet {α : Type} (d : List (String × α)) (k : String) : Option α :=
  (d.find? (fun p => p.1 == k)).map Prod.snd

/-- Python `d.pop(k, None)`: remove the key if present. -/
def dictPop {α : Type} (d : List (String × α)) (k : String) :
    List (String × α) :=
  d.filter (fun p => !(p.1 == k))

/-- `_tstamp_label(node)`: the string `'timestamp<NID>'` (backend.py line 63). -/
def _tstamp_label (node : ZWNode) : String :=
  "timestamp" ++ toString node.node_id

/-- `f_to_c(temperature)` (backend.py line 98): Fahrenheit-to-Celsius. -/
def f_to_c (temperature : Rat) : Rat :=
  (temperature - 32) * 5 / 9

/-- The state of a `Backend` instance (backend.py class `Backend`), together
with the parts of the OZW network object it reads.  A Python dict is an
insertion-ordered association list.  `self.timestamps` maps label strings to
the stored Python value, which is either `None` (stored by `_node_added`) or
an integer time (stored by `_value_update`), hence `Option Nat` values. -/
structure Backend where
  network_nodes : List (Nat × ZWNode)
  network_state : Nat
  STATE_STARTED : Nat
  node_added : Option ZWNode
  node_removed : Option ZWNode
  timestamps : List (String × Option Nat)
  re_sensor_match : String → Bool
  re_dimmer_match : String → Bool
  network_ready_timeout : Nat
  controller_operation_timeout : Nat
  controller_name : String

/-- `_is_network_started(self)` (backend.py lines 261-266):
`self.network.state >= self.network.STATE_STARTED`. -/
def _is_network_started (b : Backend) : Bool :=
  b.network_state ≥ b.STATE_STARTED

/-- `_lookup_node(self, nid)` (backend.py lines 269-282): first node in
`self.network.nodes` whose `node_id` equals `nid`, else `None`. -/
def _lookup_node (b : Backend) (nid : Nat) : Option ZWNode :=
  (b.network_nodes.find? (fun p => p.2.node_id == nid)).map Prod.snd

/-- `_is_controller(self, node)` (backend.py line 721): id 1 is the controller. -/
def _is_controller (node : ZWNode) : Bool :=
  node.node_id == 1

/-- `_is_dimmer(self, node)` (backend.py line 731):
`re.search(self.re_dimmer, node.type, re.I)`, regex matching abstracted as
the backend's boolean match function. -/
def _is_dimmer (b : Backend) (node : ZWNode) : Bool :=
  b.re_dimmer_match node.type

/-- `_is_sensor(self, node)` (backend.py line 743):
`re.search(self.re_sensor, node.type, re.I)`, regex matching abstracted as
the backend's boolean match function. -/
def _is_sensor (b : Backend) (node : ZWNode) : Bool :=
  b.re_sensor_match node.type

/-- `_has_timestamp(self, node)` (backend.py lines 770-779): true iff the key
`_tstamp_label(node)` is present in `self.timestamps`, whatever the stored
value is. -/
def _has_timestamp (b : Backend) (node : ZWNode) : Bool :=
  dictHasKey b.timestamps (_tstamp_label node)

/-- `_get_node_timestamp(self, node)` (backend.py lines 782-793): the stored
value for the label, or `None` on `KeyError`.  The stored value may itself be
`None`, which the caller cannot distinguish from a missing key. -/
def _get_node_timestamp (b : Backend) (node : ZWNode) : Option Nat :=
  match dictGet b.timestamps (_tstamp_label node) with
  | some v => v
  | none => none

/-- `_set_node_timestamp(self, node, value)` (backend.py lines 795-803):
`self.timestamps[_tstamp_label(node)] = value`. -/
def _set_node_timestamp (b : Backend) (node : ZWNode) (value : Option Nat) :
    Backend :=
  { b with timestamps := dictSet b.timestamps (_tstamp_label node) value }

/-- `_del_node_timestamp(self, node)` (backend.py lines 805-813):
`self.timestamps.pop(_tstamp_label(node), None)`. -/
def _del_node_timestamp (b : Backend) (node : ZWNode) : Backend :=
  { b with timestamps := dictPop b.timestamps (_tstamp_label node) }

/-- `_node_added(self, network, node)` (backend.py lines 375-387): sets the
`node_added` sentinel to the new node and stores `None` under the node's
timestamp label (`self._set_node_timestamp(node, None)`). -/
def _node_added (b : Backend) (node : ZWNode) : Backend :=
  _set_node_timestamp { b with node_added := some node } node none

/-- `_node_removed(self, network, node)` (backend.py lines 390-403): sets the
`node_removed` sentinel and deletes the node's timestamp entry. -/
def _node_removed (b : Backend) (node : ZWNode) : Backend :=
  _del_node_timestamp { b with node_removed := some node } node

/-- `_value_update(self, network, node, value)` (backend.py lines 406-415):
unconditionally stores `int(time.time())` under the node's timestamp label.
`now` is the observed clock value. -/
def _value_update (b : Backend) (node : ZWNode) (now : Nat) : Backend :=
  _set_node_timestamp b node (some now)

/-- `_lookup_sensor_node(self, nid)` (backend.py lines 285-306): existence,
then `node.is_ready or self._has_timestamp(node)`, then `self._is_sensor(node)`,
raising `RuntimeError` in that order. -/
def _lookup_sensor_node (b : Backend) (nid : Nat) : Except String ZWNode :=
  match _lookup_node b nid with
  | none => .error "No such node"
  | some node =>
    if !(node.is_ready || _has_timestamp b node) then .error "Not ready"
    else if !(_is_sensor b node) then .error "Not a sensor"
    else .ok node

/-- `_lookup_dimmer_node(self, nid)` (backend.py lines 309-330): same shape as
`_lookup_sensor_node` with the dimmer classification. -/
def _lookup_dimmer_node (b : Backend) (nid : Nat) : Except String ZWNode :=
  match _lookup_node b nid with
  | none => .error "No such node"
  | some node =>
    if !(node.is_ready || _has_timestamp b node) then .error "Not ready"
    else if !(_is_dimmer b node) then .error "Not a dimmer"
    else .ok node

/-- The precondition prefix of `get_dimmer_level(self, n)` (backend.py lines
1517-1526): existence, then `node.is_ready or self._has_timestamp(node)`, then
`self._is_dimmer(node)`, raising `RuntimeError` in that order. -/
def get_dimmer_level_guard (b : Backend) (nid : Nat) : Except String ZWNode :=
  match _lookup_node b nid with
  | none => .error "No such node"
  | some node =>
    if !(node.is_ready || _has_timestamp b node) then .error "Not ready"
    else if !(_is_dimmer b node) then .error "Not a dimmer"
    else .ok node

/-- The precondition prefix of `set_dimmer_level(self, n, value)` (backend.py
lines 1571-1580): existence, then `node.is_ready` alone (no `_has_timestamp`
fallback in the source), then `self._is_dimmer(node)`. -/
def set_dimmer_level_guard (b : Backend) (nid : Nat) : Except String ZWNode :=
  match _lookup_node b nid with
  | none => .error "No such node"
  | some node =>
    if !node.is_ready then .error "Not ready"
    else if !(_is_dimmer b node) then .error "Not a dimmer"
    else .ok node

/-- Comparison of dict items by key, the order `sorted` uses on the items of
`self.network.nodes` (the keys of a Python dict are pairwise distinct, so the
tuple comparison never reaches the node objects). -/
def keyLe (p q : Nat × ZWNode) : Prop := p.1 ≤ q.1

instance : DecidableRel keyLe := fun p q => Nat.decLe p.1 q.1

instance : IsTotal (Nat × ZWNode) keyLe := ⟨fun a b => Nat.le_total a.1 b.1⟩

instance : IsTrans (Nat × ZWNode) keyLe := ⟨fun _ _ _ h1 h2 => Nat.le_trans h1 h2⟩

/-- `_my_nodes(self)` (backend.py lines 711-718):
`OrderedDict(sorted(self.network.nodes.items()))`.  Python's `sorted` is a
stable sort by `keyLe`; it is modelled by the stable `insertionSort`. -/
def _my_nodes (b : Backend) : List (Nat × ZWNode) :=
  b.network_nodes.insertionSort keyLe

/-- `get_nodes_list(self)` (backend.py lines 618-650): iterates the values of
`_my_nodes()` in order and maps each node id to `str(node.type)` when the node
is ready, else to the `"[not ready]"` note. -/
def get_nodes_list (b : Backend) : List (Nat × String) :=
  (_my_nodes b).map
    (fun p => (p.2.node_id, if p.2.is_ready then p.2.type else "[not ready]"))

/-- Driver commands the backend issues synchronously, in issue order. -/
inductive Cmd where
  | networkStart
  | controllerAddNode
  | controllerRemoveNode
  | controllerCancelCommand
deriving DecidableEq, Repr

/-- One iteration-indexed poll of the loop in `start` (backend.py lines
447-454): `for i in range(0, network_ready_timeout): if network.is_ready:
timeout = False; break; else: sleep(1)`.  `env i` is whether
`self.network.is_ready` holds at iteration `i`; the result is the final value
of the local `timeout` flag. -/
def startPoll (env : Nat → Bool) : Nat → Nat → Bool
  | 0, _ => true
  | fuel + 1, i => if env i then false else startPoll env fuel (i + 1)

/-- The observable outcome of one `start()` call. -/
structure StartOutcome where
  g : Bool
  b : Backend
  cmds : List Cmd
  ret : Bool × String

/-- `start(self)` (backend.py lines 421-472).  `g` is the module-level global
`started` on entry; `env` is the driver readiness oracle consulted by the poll
loop.  When `started` already holds, the call returns `(False, msg)` at once;
otherwise it calls `self.network.start()`, runs the readiness poll (whose
outcome does not affect the returned value), sets `started = True` and
returns `(True, 'OK')`. -/
def start (g : Bool) (env : Nat → Bool) (b : Backend) : StartOutcome :=
  if g then
    { g := g, b := b, cmds := [],
      ret := (false, "System already started. Skipping...") }
  else
    let _timedOut := startPoll env b.network_ready_timeout 0
    { g := true, b := b, cmds := [Cmd.networkStart], ret := (true, "OK") }

/-- In `add_node` (backend.py line 839) the guard reads
`if not self._network_started:` where `_network_started` is the notification
callback method defined at line 344, not a call to `_is_network_started()`
(line 261).  The expression therefore takes the truthiness of a bound method
object, which in Python is always `True`; this constant embeds that
truthiness. -/
def bound_method_truthiness : Bool := true

/-- How the busy-wait loop of `add_node` exits: either the `node_added`
sentinel changed to a new node before the deadline, or
`time.time() - start` exceeded `controller_operation_timeout`.  This is an
environment parameter because the sentinel is mutated asynchronously by the
notification thread and the deadline depends on the wall clock. -/
inductive AddWait where
  | changed (node : ZWNode)
  | deadline
deriving DecidableEq, Repr

/-- The Python-level result of `add_node`: a returned node dict, a raised
`RuntimeError`, or the implicit `return None` reached when no `return`
statement executes. -/
inductive PyResult where
  | ok (node : ZWNode)
  | exn (msg : String)
  | pyNone
deriving DecidableEq, Repr

/-- `add_node(self)` (backend.py lines 816-852).  `submit_accepted` is the
boolean result of the synchronous driver call
`self.network.controller.add_node()`; `wait` is how the busy-wait loop exits.
The first component lists the driver commands issued, in order. -/
def add_node (b : Backend) (submit_accepted : Bool) (wait : AddWait) :
    List Cmd × PyResult :=
  if !bound_method_truthiness then
    ([], .exn "Network is down")
  else if submit_accepted then
    match wait with
    | .changed node => ([Cmd.controllerAddNode], .ok node)
    | .deadline =>
      ([Cmd.controllerAddNode, Cmd.controllerCancelCommand], .exn "Timeout")
  else
    ([Cmd.controllerAddNode], .pyNone)

/-- The dict `get_sensor_luminance` returns on success (backend.py lines
1191-1198), with the float value as a rational. -/
structure SensorReading where
  controller : String
  sensor : Nat
  location : String
  type : String
  updateTime : Option Nat
  value : Rat
deriving DecidableEq, Repr

/-- `get_sensor_luminance(self, n)` (backend.py lines 1142-1198).  `values` is
the list of value objects the driver call `node.get_values(...)` returns for
the Luminance label (dict values in order).  After the sensor-node lookup, an
empty result raises; otherwise element `[0]` of
`[v.data if v.units == 'C' else f_to_c(v.data) for k, v in values.items()]`
is the reading. -/
def get_sensor_luminance (b : Backend) (n : Nat) (values : List ZWValue) :
    Except String SensorReading :=
  match _lookup_sensor_node b n with
  | .error e => .error e
  | .ok node =>
    match values with
    | [] => .error "luminance: label not found. Is this a sensor?"
    | v :: _ =>
      .ok { controller := b.controller_name
            sensor := node.node_id
            location := node.location
            type := "luminance"
            updateTime := _get_node_timestamp b node
            value := if v.units == "C" then v.data else f_to_c v.data }

/-! ## Concrete fixtures for evaluating the model -/

/-- A concrete node with the given id, readiness and type string. -/
def testNode (i : Nat) (rdy : Bool) (ty : String) : ZWNode :=
  { node_id := i, is_ready := rdy, type := ty,
    product_name := "P", location := "Lab", name := "N" }

/-- A concrete backend: sensor types match `"Sensor"`, dimmer types match
`"Dimmer"`, `STATE_STARTED = 5` (the OZW started threshold), ready-timeout 3. -/
def testBackend (nodes : List (Nat × ZWNode)) (st : Nat)
    (ts : List (String × Option Nat)) : Backend :=
  { network_nodes := nodes, network_state := st, STATE_STARTED := 5,
    node_added := none, node_removed := none, timestamps := ts,
    re_sensor_match := fun s => s == "Sensor",
    re_dimmer_match := fun s => s == "Dimmer",
    network_ready_timeout := 3, controller_operation_timeout := 20,
    controller_name := "ctrl" }

/-- A backend whose network is down (state 0 < STATE_STARTED). -/
def downBackend : Backend := testBackend [] 0 []

/-- A backend whose network is started (state 5 ≥ STATE_STARTED). -/
def upBackend : Backend := testBackend [] 5 []

/-- A fresh node with id 5, not ready, of sensor type. -/
def node5 : ZWNode := testNode 5 false "Sensor"

/-- A dimmer node with id 7 that is not ready. -/
def dimNode : ZWNode := testNode 7 false "Dimmer"

/-- A started backend containing `dimNode`, which has a timestamp entry
(has-history holds) but is not ready. -/
def dimBackend : Backend :=
  testBackend [(7, dimNode)] 5 [("timestamp7", some 100)]

/-! ## Helper lemmas -/

/-- Appending a fresh key to a dict makes it retrievable. -/
theorem dictGet_append_fresh {α : Type} (d : List (String × α)) (k : String)
    (v : α) (h : dictHasKey d k = false) : dictGet (d ++ [(k, v)]) k = some v := by
  induction d with
  | nil => simp [dictGet]
  | cons p d ih =>
    simp only [dictHasKey, List.any_cons, Bool.or_eq_false_iff] at h
    simp only [dictGet, List.cons_append, List.find?_cons, h.1]
    exact ih h.2

/-- Setting a fresh key grows the dict by exactly one entry. -/
theorem dictSet_fresh_length {α : Type} (d : List (String × α)) (k : String)
    (v : α) (h : dictHasKey d k = false) :
    (dictSet d k v).length = d.length + 1 := by
  simp [dictSet, h]

/-- If the never-ready oracle holds over the polled window, the poll loop
ends with its timeout flag still set. -/
theorem startPoll_of_never_ready (env : Nat → Bool) :
    ∀ fuel i, (∀ j, j < i + fuel → env j = false) →
      startPoll env fuel i = true := by
  intro fuel
  induction fuel with
  | zero => intro i _; rfl
  | succ m ih =>
    intro i h
    have hi : env i = false := h i (by omega)
    simp only [startPoll, hi]
    exact ih (i + 1) (fun j hj => h j (by omega))

/-! ## Claims -/

/-- C1: the spec claims `add_node()` on a non-started network fails with the
NetworkDown error ("Network is down") and issues no driver command.  In the
source the guard tests the truthiness of the bound method `_network_started`
instead of calling `_is_network_started()`, so it never fires: on a backend
whose network is down, `add_node` still issues the controller's add-node
command, and no input makes it raise "Network is down". -/
theorem add_node_ignores_network_down :
    _is_network_started downBackend = false ∧
    (add_node downBackend true AddWait.deadline).1 =
      [Cmd.controllerAddNode, Cmd.controllerCancelCommand] ∧
    (add_node downBackend true AddWait.deadline).2 = PyResult.exn "Timeout" ∧
    ∀ submit wait,
      (add_node downBackend submit wait).2 ≠ PyResult.exn "Network is down" := by
  refine ⟨by decide, rfl, rfl, ?_⟩
  intro submit wait
  cases submit <;> cases wait <;> simp [add_node, bound_method_truthiness]

/-- C2 counterexample: the claim says a value-update notification for an
identity with no existing record leaves the timestamp map unchanged.  On the
empty state, a value update for node 5 creates the entry `timestamp5`: the map
grows from size 0 to size 1. -/
theorem value_update_unknown_identity_not_noop :
    downBackend.timestamps.length = 0 ∧
    (_value_update downBackend node5 1000).timestamps =
      [("timestamp5", some 1000)] ∧
    (_value_update downBackend node5 1000).timestamps.length = 1 := by
  refine ⟨rfl, ?_, rfl⟩
  rfl

/-- C2 (amended): a value-update notification for an identity with no existing
timestamp entry is not a no-op: the handler unconditionally stores the
observed time, creating the entry and growing the timestamp map by one. -/
theorem value_update_unknown_identity_creates_entry (b : Backend)
    (node : ZWNode) (now : Nat)
    (h : dictHasKey b.timestamps (_tstamp_label node) = false) :
    (_value_update b node now).timestamps.length = b.timestamps.length + 1 ∧
    _get_node_timestamp (_value_update b node now) node = some now := by
  constructor
  · exact dictSet_fresh_length _ _ _ h
  · simp only [_value_update, _set_node_timestamp, _get_node_timestamp, dictSet, h,
      Bool.false_eq_true, if_false]
    rw [dictGet_append_fresh _ _ _ h]

/-- C2 witness: the amended statement applied to the concrete empty state. -/
theorem value_update_unknown_identity_creates_entry_witness :
    (_value_update downBackend node5 1000).timestamps.length =
      downBackend.timestamps.length + 1 ∧
    _get_node_timestamp (_value_update downBackend node5 1000) node5 =
      some 1000 :=
  value_update_unknown_identity_creates_entry downBackend node5 1000 (by decide)

/-- C3: once `start()` has succeeded (the global `started` flag is set), a
second `start()` returns a False status with the explanatory reason, issues no
driver command, and leaves the backend state untouched. -/
theorem start_second_call_already_started (b : Backend)
    (env env2 : Nat → Bool) :
    (start false env b).g = true ∧
    (start false env b).ret = (true, "OK") ∧
    start (start false env b).g env2 b =
      { g := true, b := b, cmds := [],
        ret := (false, "System already started. Skipping...") } :=
  ⟨rfl, rfl, rfl⟩

/-- C4: the spec claims that right after a node-added notification the node's
has-history predicate is false until a first value update.  The handler stores
`None` under the node's timestamp label, so `_has_timestamp` — a key-presence
test — is already true immediately after the add, with the stored timestamp
still `None` and no value update delivered. -/
theorem node_added_makes_has_timestamp_true :
    _has_timestamp downBackend node5 = false ∧
    _has_timestamp (_node_added downBackend node5) node5 = true ∧
    _get_node_timestamp (_node_added downBackend node5) node5 = none := by
  refine ⟨rfl, ?_, ?_⟩ <;> rfl

/-- C5: when the network never becomes ready during the
`network_ready_timeout` polling iterations, `start()` on a not-yet-started
instance still returns success `(True, 'OK')` (and sets the started flag):
the timeout only leaves the loop's flag set, it is not raised as an error. -/
theorem start_timeout_returns_ok (b : Backend) (env : Nat → Bool)
    (h : ∀ i, i < b.network_ready_timeout → env i = false) :
    startPoll env b.network_ready_timeout 0 = true ∧
    (start false env b).ret = (true, "OK") ∧
    (start false env b).g = true := by
  refine ⟨?_, rfl, rfl⟩
  exact startPoll_of_never_ready env b.network_ready_timeout 0
    (fun j hj => h j (by omega))

/-- C5 witness: a concrete never-ready driver with ready-timeout 3. -/
theorem start_timeout_returns_ok_witness :
    startPoll (fun _ => false) upBackend.network_ready_timeout 0 = true ∧
    (start false (fun _ => false) upBackend).ret = (true, "OK") ∧
    (start false (fun _ => false) upBackend).g = true :=
  start_timeout_returns_ok upBackend (fun _ => false) (fun _ _ => rfl)

/-- C6: the spec claims a rejected driver add-node submission is reported as a
structured error and never as a bare None.  When
`controller.add_node()` returns False on a started network, the source's `if`
body is skipped and the function falls off its end: it returns Python `None`,
issuing the add-node command but no cancel and raising nothing. -/
theorem add_node_driver_rejection_returns_none :
    _is_network_started upBackend = true ∧
    add_node upBackend false (AddWait.changed node5) =
      ([Cmd.controllerAddNode], PyResult.pyNone) ∧
    add_node upBackend false AddWait.deadline =
      ([Cmd.controllerAddNode], PyResult.pyNone) := by
  refine ⟨by decide, rfl, rfl⟩

/-- C7 counterexample: the claim says every sensor/dimmer-specific operation
— explicitly including the dimmer level setter — accepts a node satisfying
is-ready OR has-history.  `dimNode` exists, is not ready but has history, and
is a dimmer; `get_dimmer_level`'s guard accepts it while
`set_dimmer_level`'s guard rejects it with "Not ready". -/
theorem set_dimmer_level_guard_ignores_history :
    _lookup_node dimBackend 7 = some dimNode ∧
    (dimNode.is_ready || _has_timestamp dimBackend dimNode) = true ∧
    dimNode.is_ready = false ∧
    _is_dimmer dimBackend dimNode = true ∧
    get_dimmer_level_guard dimBackend 7 = Except.ok dimNode ∧
    set_dimmer_level_guard dimBackend 7 = Except.error "Not ready" := by
  refine ⟨rfl, by decide, rfl, by decide, rfl, rfl⟩

/-- C7 (amended): every sensor/dimmer-specific guard checks existence, then
readiness, then classification, in that fixed order; the sensor lookups and
the dimmer level getter use the is-ready OR has-history readiness test, while
the dimmer level setter tests is-ready alone, with no has-history fallback. -/
theorem sensor_dimmer_guard_checks (b : Backend) (n : Nat) :
    (_lookup_node b n = none →
      _lookup_sensor_node b n = Except.error "No such node" ∧
      _lookup_dimmer_node b n = Except.error "No such node" ∧
      get_dimmer_level_guard b n = Except.error "No such node" ∧
      set_dimmer_level_guard b n = Except.error "No such node") ∧
    (∀ node, _lookup_node b n = some node →
      ((_lookup_sensor_node b n = Except.ok node) ↔
        ((node.is_ready || _has_timestamp b node) = true ∧
          _is_sensor b node = true)) ∧
      ((_lookup_sensor_node b n = Except.error "Not ready") ↔
        (node.is_ready || _has_timestamp b node) = false) ∧
      ((_lookup_sensor_node b n = Except.error "Not a sensor") ↔
        ((node.is_ready || _has_timestamp b node) = true ∧
          _is_sensor b node = false)) ∧
      ((_lookup_dimmer_node b n = Except.ok node) ↔
        ((node.is_ready || _has_timestamp b node) = true ∧
          _is_dimmer b node = true)) ∧
      ((get_dimmer_level_guard b n = Except.ok node) ↔
        ((node.is_ready || _has_timestamp b node) = true ∧
          _is_dimmer b node = true)) ∧
      ((set_dimmer_level_guard b n = Except.ok node) ↔
        (node.is_ready = true ∧ _is_dimmer b node = true)) ∧
      ((set_dimmer_level_guard b n = Except.error "Not ready") ↔
        node.is_ready = false)) := by
  constructor
  · intro h
    refine ⟨?_, ?_, ?_, ?_⟩ <;>
      simp [_lookup_sensor_node, _lookup_dimmer_node, get_dimmer_level_guard,
        set_dimmer_level_guard, h]
  · intro node h
    cases hr : node.is_ready <;> cases ht : _has_timestamp b node <;>
      cases hs : _is_sensor b node <;> cases hdm : _is_dimmer b node <;>
      simp [_lookup_sensor_node, _lookup_dimmer_node, get_dimmer_level_guard,
        set_dimmer_level_guard, h, hr, ht, hs, hdm]

/-- C7 witness: the amended statement applied to the concrete dimmer backend;
the setter rejects the not-ready node with history while the getter and the
dimmer lookup accept it. -/
theorem sensor_dimmer_guard_checks_witness :
    set_dimmer_level_guard dimBackend 7 = Except.error "Not ready" ∧
    get_dimmer_level_guard dimBackend 7 = Except.ok dimNode := by
  have h := (sensor_dimmer_guard_checks dimBackend 7).2 dimNode rfl
  exact ⟨h.2.2.2.2.2.2.2 (by decide), (h.2.2.2.2.1).2 (by decide)⟩

/-- C8: whatever the arrival order of the underlying node dict entries, the
node-listing operation built on `_my_nodes` produces entries in strictly
ascending node-identity order (the dict keys are the node ids and are
pairwise distinct). -/
theorem get_nodes_list_sorted (b : Backend)
    (hk : ∀ p ∈ b.network_nodes, p.1 = p.2.node_id)
    (hd : (b.network_nodes.map Prod.fst).Nodup) :
    ((get_nodes_list b).map Prod.fst).Sorted (· < ·) := by
  have hperm : (_my_nodes b).Perm b.network_nodes :=
    List.perm_insertionSort keyLe b.network_nodes
  have hsort : (_my_nodes b).Pairwise (fun p q => p.1 ≤ q.1) :=
    (List.sorted_insertionSort keyLe b.network_nodes).imp (fun h => h)
  have hnodup : ((_my_nodes b).map Prod.fst).Nodup :=
    ((hperm.map Prod.fst).nodup_iff).mpr hd
  have hlt : (_my_nodes b).Pairwise (fun p q => p.1 < q.1) := by
    have hne : (_my_nodes b).Pairwise (fun p q => p.1 ≠ q.1) :=
      List.pairwise_map.mp hnodup
    exact (hsort.and hne).imp (fun h => lt_of_le_of_ne h.1 h.2)
  have hmap : (get_nodes_list b).map Prod.fst = (_my_nodes b).map Prod.fst := by
    simp only [get_nodes_list, List.map_map]
    exact List.map_congr_left
      (fun p hp => ((hk p (hperm.subset hp)).symm : p.2.node_id = p.1))
  rw [hmap]
  exact List.pairwise_map.mpr hlt

/-- C8 witness: nodes arriving in order 3, 1, 2 are listed as 1, 2, 3. -/
theorem get_nodes_list_sorted_witness :
    ((get_nodes_list (testBackend
        [(3, testNode 3 true "Sensor"), (1, testNode 1 true "Ctrl"),
         (2, testNode 2 false "Dimmer")] 5 [])).map Prod.fst).Sorted
      (· < ·) ∧
    (get_nodes_list (testBackend
        [(3, testNode 3 true "Sensor"), (1, testNode 1 true "Ctrl"),
         (2, testNode 2 false "Dimmer")] 5 [])).map Prod.fst = [1, 2, 3] :=
  ⟨get_nodes_list_sorted _ (by decide) (by decide), by decide⟩

/-- C9: the spec claims started-status is owned per instance, so that after
instance A's successful `start()`, a `start()` on a never-started distinct
instance B must not fail with AlreadyStarted.  The source keeps `started` as
a module-level global: after A's call sets it, B's first `start()` returns
the AlreadyStarted failure and issues no driver command. -/
theorem started_flag_shared_across_instances :
    (start false (fun _ => false) downBackend).ret = (true, "OK") ∧
    (start false (fun _ => false) downBackend).g = true ∧
    (start (start false (fun _ => false) downBackend).g (fun _ => false)
        dimBackend).ret = (false, "System already started. Skipping...") ∧
    (start (start false (fun _ => false) downBackend).g (fun _ => false)
        dimBackend).cmds = [] :=
  ⟨rfl, rfl, rfl, rfl⟩

/-- C10: every successful `get_sensor_luminance` call returns the raw reading
when its units string is `'C'`, and the Fahrenheit-to-Celsius conversion
`(reading - 32) * 5 / 9` for any other units string — the temperature
conversion is applied to luminance readings too. -/
theorem get_sensor_luminance_converts_units (b : Backend) (n : Nat)
    (v : ZWValue) (vs : List ZWValue) (r : SensorReading)
    (h : get_sensor_luminance b n (v :: vs) = Except.ok r) :
    r.value = if v.units == "C" then v.data else (v.data - 32) * 5 / 9 := by
  unfold get_sensor_luminance at h
  cases hl : _lookup_sensor_node b n with
  | error e => rw [hl] at h; simp at h
  | ok node =>
    rw [hl] at h
    simp only [Except.ok.injEq] at h
    rw [← h]
    rfl

/-- A started backend containing a single ready sensor node with id 2. -/
def lumBackend : Backend := testBackend [(2, testNode 2 true "Sensor")] 5 []

/-- A luminance value object reported in Fahrenheit-labelled units. -/
def lumValue : ZWValue := { data := 212, units := "F" }

/-- The reading `get_sensor_luminance` produces for `lumValue` on
`lumBackend`. -/
def lumReading : SensorReading :=
  { controller := "ctrl", sensor := 2, location := "Lab",
    type := "luminance", updateTime := none, value := 100 }

/-- C10 witness: a ready sensor reporting luminance 212 with units "F" yields
the converted value (212 - 32) * 5 / 9 = 100. -/
theorem get_sensor_luminance_converts_units_witness :
    get_sensor_luminance lumBackend 2 [lumValue] = Except.ok lumReading ∧
    lumReading.value = if lumValue.units == "C" then lumValue.data
                       else (lumValue.data - 32) * 5 / 9 := by
  have hok : get_sensor_luminance lumBackend 2 [lumValue] =
      Except.ok lumReading := by
    have hl : _lookup_sensor_node lumBackend 2 =
        Except.ok (testNode 2 true "Sensor") := rfl
    unfold get_sensor_luminance
    rw [hl]
    simp only [lumValue, lumReading, Except.ok.injEq, SensorReading.mk.injEq,
      true_and, and_true]
    norm_num [f_to_c]
    try decide
  exact ⟨hok,
    get_sensor_luminance_converts_units lumBackend 2 lumValue [] lumReading hok⟩

end MAIoT
